import Mathlib

/-!
Shallow embedding of the `driver_shim` subsystem of Pimax-EyeTracker-SteamVR
(source files `Driver.cpp`, `HmdShimDriver.cpp`, `ShimDriverManager.cpp`).

Modelling conventions:
* OpenVR handles (`HMODULE`, `PropertyContainerHandle_t`,
  `VRInputComponentHandle_t`, `pvrEnvHandle`, `pvrSessionHandle`) are `Nat`.
* C++ exceptions are embedded as `Except`; `pvrResult` is an `Int` where `0`
  is `pvr_success`.
* Calls made into the host or into the wrapped device are recorded in an
  ordered event list, so that forwarding and call ordering are observable.
* The background update thread is modelled by a `workerRunning` flag in the
  decorator state: `Activate` spawning `m_updateThread` sets it, the
  `m_updateThread.join()` in `Deactivate` clears it.
* `float`/`double` sensor values are embedded as `ℚ` (every finite machine
  float is rational); the trigonometric transform maps them into `ℝ`.
-/

namespace DriverShim

/-! ### OpenVR / PVR constants (from openvr.h and the PVR SDK) -/

/-- Constant `vr::VRInitError_None`. -/
def VRInitError_None : Nat := 0

/-- Constant `vr::VRInitError_Init_HmdNotFound`. -/
def VRInitError_Init_HmdNotFound : Nat := 108

/-- Constant `vr::VRInitError_Driver_Failed`. -/
def VRInitError_Driver_Failed : Nat := 200

/-- Constant `vr::k_unTrackedDeviceIndexInvalid` (0xFFFFFFFF). -/
def k_unTrackedDeviceIndexInvalid : Nat := 4294967295

/-- Value `pvr_success` of the PVR SDK result enum. -/
def pvr_success : Int := 0

/-- The file name of the targeted vendor module (ShimDriverManager.cpp:96). -/
def targetDriverModule : String := "driver_aapvr.dll"

/-- The fixed, host-mandated eye-tracking component path
(HmdShimDriver.cpp:70). -/
def eyeTrackingPath : String := "/eyetracking"

/-- Enum `vr::ETrackedDeviceClass`, as compared by the hook. -/
inductive TrackedDeviceClass where
  | invalid
  | hmd
  | controller
  | genericTracker
  | trackingReference
  | displayRedirect
  deriving DecidableEq, Repr

/-! ### Devices and the call-site interceptor (`ShimDriverManager.cpp`) -/

/-- A `vr::ITrackedDeviceServerDriver*` as seen by the interceptor: either a
device object registered by some vendor driver, or an `HmdShimDriver`
allocated by `CreateHmdShimDriver` wrapping such a device together with the
shared PVR handles. -/
inductive Device where
  | original (id : Nat)
  | decorated (wrapped : Device) (pvr : Nat) (pvrSession : Nat)
  deriving DecidableEq, Repr

/-- The in-process module environment consulted by `IsTargetDriver`:
`moduleFromAddress` is `GetModuleHandleExA(GET_MODULE_HANDLE_EX_FLAG_FROM_ADDRESS, ...)`
(`none` when the call fails, i.e. the address lies in no loaded module);
`moduleByName` is `GetModuleHandleA` (`0` models a NULL handle). -/
structure ProcessEnv where
  moduleFromAddress : Nat → Option Nat
  moduleByName : String → Nat

/-- Embeds `driver_shim::IsTargetDriver` (ShimDriverManager.cpp:91-99): resolve the
return address to its containing module; on success compare the handle with
the handle of `driver_aapvr.dll`; on failure return `false`. -/
def IsTargetDriver (env : ProcessEnv) (returnAddress : Nat) : Bool :=
  match env.moduleFromAddress returnAddress with
  | some callerModule => callerModule == env.moduleByName targetDriverModule
  | none => false

/-- The `HmdShimDriver` constructor (HmdShimDriver.cpp:41-52) embedded as an
`Except`: the body only traces; the capability probe that would throw
`EyeTrackerNotSupportedException` is a TODO in the source, so the constructor
as written always succeeds, producing a decorator wrapping the device. -/
def hmdShimDriverCtor (pvr pvrSession : Nat) (shimmedDevice : Device) :
    Except Unit Device :=
  Except.ok (Device.decorated shimmedDevice pvr pvrSession)

/-- The `try { return new ... } catch (EyeTrackerNotSupportedException&)`
shape of `CreateHmdShimDriver` (HmdShimDriver.cpp:203-211), abstracted over
the constructor so the catch branch is expressible: a constructor failure
falls back to the original device. -/
def tryCreateShim (ctor : Device → Except Unit Device) (shimmedDriver : Device) :
    Device :=
  match ctor shimmedDriver with
  | Except.ok d => d
  | Except.error _ => shimmedDriver

/-- Embeds `driver_shim::CreateHmdShimDriver` (HmdShimDriver.cpp:203-211). -/
def CreateHmdShimDriver (pvr pvrSession : Nat) (shimmedDriver : Device) : Device :=
  tryCreateShim (hmdShimDriverCtor pvr pvrSession) shimmedDriver

/-- Embeds `hooked_IVRServerDriverHost_TrackedDeviceAdded`
(ShimDriverManager.cpp:35-64). Arguments: the module environment, the
`g_pvr`/`g_pvrSession` globals, the original (un-hooked) registration
function, the machine return address of the call, and the hook's own
parameters. Returns the device actually handed to the original registration
function together with the original's status, returned unchanged. -/
def hooked_TrackedDeviceAdded (env : ProcessEnv) (g_pvr g_pvrSession : Nat)
    (original : String → TrackedDeviceClass → Device → Bool)
    (returnAddress : Nat) (serialNumber : String)
    (eDeviceClass : TrackedDeviceClass) (pDriver : Device) : Device × Bool :=
  let shimmedDriver :=
    if IsTargetDriver env returnAddress then
      if eDeviceClass = TrackedDeviceClass.hmd then
        CreateHmdShimDriver g_pvr g_pvrSession pDriver
      else pDriver
    else pDriver
  (shimmedDriver, original serialNumber eDeviceClass shimmedDriver)

/-! ### Sample transform (`HmdShimDriver::UpdateThread`, HmdShimDriver.cpp:146-180) -/

/-- A `pvrVector2f` gaze tangent, components as rationals. -/
structure Vector2 where
  x : ℚ
  y : ℚ
  deriving DecidableEq, Repr

/-- Struct `pvrEyeTrackingInfo`: the timestamp and the two per-eye 2-D gaze tangent
vectors (`GazeTan[0]` = left, `GazeTan[1]` = right). -/
structure pvrEyeTrackingInfo where
  TimeInSeconds : ℚ
  GazeTanLeft : Vector2
  GazeTanRight : Vector2
  deriving DecidableEq, Repr

/-- Struct `vr::VREyeTrackingData_t`: 3-D gaze direction plus the three flags. -/
structure VREyeTrackingData where
  vGazeTarget : ℝ × ℝ × ℝ
  bValid : Bool
  bTracked : Bool
  bActive : Bool

/-- Embeds `DirectX::XMVector3Normalize`: divide by the Euclidean length. -/
noncomputable def XMVector3Normalize (v : ℝ × ℝ × ℝ) : ℝ × ℝ × ℝ :=
  let n := Real.sqrt (v.1 ^ 2 + v.2.1 ^ 2 + v.2.2 ^ 2)
  (v.1 / n, v.2.1 / n, v.2.2 / n)

/-- Embeds `isEyeTrackingDataAvailable` (HmdShimDriver.cpp:154):
`result == pvr_success && state.TimeInSeconds > 0`. -/
def isEyeTrackingDataAvailable (result : Int) (state : pvrEyeTrackingInfo) : Bool :=
  decide (result = pvr_success) && decide (0 < state.TimeInSeconds)

/-- The pure per-cycle sample transform executed by
`HmdShimDriver::UpdateThread` (HmdShimDriver.cpp:154-179): when data is
available, average the per-eye tangents, take arctangents, build the polar
unit vector and normalize it, with all flags true; otherwise fall back to
the fixed forward vector `(0, 0, -1)` with all flags false. -/
noncomputable def sampleTransform (result : Int) (state : pvrEyeTrackingInfo) :
    VREyeTrackingData :=
  if isEyeTrackingDataAvailable result state then
    let angleHorizontal : ℝ :=
      Real.arctan (((state.GazeTanLeft.x + state.GazeTanRight.x) / 2 : ℚ) : ℝ)
    let angleVertical : ℝ :=
      Real.arctan (((state.GazeTanLeft.y + state.GazeTanRight.y) / 2 : ℚ) : ℝ)
    { vGazeTarget := XMVector3Normalize
        (Real.sin angleHorizontal * Real.cos angleVertical,
         Real.sin angleVertical,
         -(Real.cos angleHorizontal * Real.cos angleVertical)),
      bValid := true, bTracked := true, bActive := true }
  else
    { vGazeTarget := (0, 0, -1),
      bValid := false, bTracked := false, bActive := false }

/-! ### The decorator lifecycle (`HmdShimDriver`, HmdShimDriver.cpp:40-198) -/

/-- Struct `vr::DriverPose_t`, kept abstract: only its identity matters to the
forwarding claims. -/
structure DriverPose_t where
  raw : Nat
  deriving DecidableEq, Repr

/-- The behaviour of the wrapped `vr::ITrackedDeviceServerDriver`
(`m_shimmedDevice`), given by the results its methods produce. -/
structure WrappedDevice where
  activate : Nat → Nat
  getComponent : String → Option Nat
  getPose : DriverPose_t
  debugRequest : String → String

/-- The host services used by `HmdShimDriver::Activate`:
`vr::VRProperties()->TrackedDeviceToPropertyContainer` and
`vr::VRDriverInput()->CreateEyeTrackingComponent` (which yields the handle
written to `m_eyeTrackingComponent`). -/
structure Host where
  trackedDeviceToPropertyContainer : Nat → Nat
  createEyeTrackingComponent : Nat → String → Nat

/-- Calls the decorator makes into the host or into the wrapped device, in
program order. -/
inductive Event where
  | forwardActivate (objectId : Nat) (result : Nat)
  | setBoolProperty (container : Nat) (value : Bool)
  | createEyeTrackingComponent (container : Nat) (path : String)
  | spawnWorker
  | clearActiveFlag (wasActive : Bool)
  | joinWorker
  | resetDeviceIndex
  | forwardDeactivate
  | forwardEnterStandby
  | forwardGetComponent (name : String)
  | forwardGetPose
  | forwardDebugRequest (request : String)
  deriving DecidableEq, Repr

/-- The mutable state of an `HmdShimDriver` instance (fields of the struct in
HmdShimDriver.cpp:188-197); `workerRunning` stands for `m_updateThread` being
a running, joinable thread. -/
structure HmdShimDriver where
  shimmedDevice : WrappedDevice
  pvr : Nat
  pvrSession : Nat
  deviceIndex : Nat
  active : Bool
  workerRunning : Bool
  eyeTrackingComponent : Nat

/-- A freshly constructed `HmdShimDriver` (member initializers,
HmdShimDriver.cpp:41-42 and 192-197). -/
def HmdShimDriver.init (shimmedDevice : WrappedDevice) (pvr pvrSession : Nat) :
    HmdShimDriver :=
  { shimmedDevice := shimmedDevice, pvr := pvr, pvrSession := pvrSession,
    deviceIndex := k_unTrackedDeviceIndexInvalid,
    active := false, workerRunning := false, eyeTrackingComponent := 0 }

/-- Embeds `HmdShimDriver::Activate` (HmdShimDriver.cpp:54-83): forward to the
wrapped device (result discarded), record the device index, obtain the
property container, advertise the bool property, create the eye-tracking
input component, set `m_active`, spawn the update thread, and return
`vr::VRInitError_None`. -/
def HmdShimDriver.Activate (host : Host) (s : HmdShimDriver) (unObjectId : Nat) :
    HmdShimDriver × Nat × List Event :=
  let forwardedResult := s.shimmedDevice.activate unObjectId
  let container := host.trackedDeviceToPropertyContainer unObjectId
  let component := host.createEyeTrackingComponent container eyeTrackingPath
  ({ s with deviceIndex := unObjectId,
            eyeTrackingComponent := component,
            active := true,
            workerRunning := true },
   VRInitError_None,
   [Event.forwardActivate unObjectId forwardedResult,
    Event.setBoolProperty container true,
    Event.createEyeTrackingComponent container eyeTrackingPath,
    Event.spawnWorker])

/-- Embeds `HmdShimDriver::Deactivate` (HmdShimDriver.cpp:85-100):
`m_active.exchange(false)`; join the update thread only when the flag was
previously true; reset `m_deviceIndex` to the invalid sentinel; forward
`Deactivate` to the wrapped device last. -/
def HmdShimDriver.Deactivate (s : HmdShimDriver) : HmdShimDriver × List Event :=
  let wasActive := s.active
  let s1 := { s with active := false }
  let joined :=
    if wasActive then ({ s1 with workerRunning := false }, [Event.joinWorker])
    else (s1, ([] : List Event))
  let s2 := { joined.1 with deviceIndex := k_unTrackedDeviceIndexInvalid }
  (s2, Event.clearActiveFlag wasActive ::
        joined.2 ++ [Event.resetDeviceIndex, Event.forwardDeactivate])

/-- Embeds `HmdShimDriver::EnterStandby` (HmdShimDriver.cpp:102-104). -/
def HmdShimDriver.EnterStandby (s : HmdShimDriver) : HmdShimDriver × List Event :=
  (s, [Event.forwardEnterStandby])

/-- Embeds `HmdShimDriver::GetComponent` (HmdShimDriver.cpp:106-108). -/
def HmdShimDriver.GetComponent (s : HmdShimDriver) (name : String) :
    HmdShimDriver × Option Nat × List Event :=
  (s, s.shimmedDevice.getComponent name, [Event.forwardGetComponent name])

/-- Embeds `HmdShimDriver::GetPose` (HmdShimDriver.cpp:110-112). -/
def HmdShimDriver.GetPose (s : HmdShimDriver) :
    HmdShimDriver × DriverPose_t × List Event :=
  (s, s.shimmedDevice.getPose, [Event.forwardGetPose])

/-- Embeds `HmdShimDriver::DebugRequest` (HmdShimDriver.cpp:114-116); the response
written into the caller's buffer is returned. -/
def HmdShimDriver.DebugRequest (s : HmdShimDriver) (request : String) :
    HmdShimDriver × String × List Event :=
  (s, s.shimmedDevice.debugRequest request, [Event.forwardDebugRequest request])

/-- A lifecycle call the host may make on the decorator. -/
inductive LifecycleOp where
  | activate (objectId : Nat)
  | deactivate
  | enterStandby
  | getComponent (name : String)
  | getPose
  | debugRequest (request : String)
  deriving DecidableEq, Repr

/-- One host call on the decorator. -/
def stepOp (host : Host) (s : HmdShimDriver) : LifecycleOp → HmdShimDriver × List Event
  | LifecycleOp.activate i => ((s.Activate host i).1, (s.Activate host i).2.2)
  | LifecycleOp.deactivate => s.Deactivate
  | LifecycleOp.enterStandby => s.EnterStandby
  | LifecycleOp.getComponent name => ((s.GetComponent name).1, (s.GetComponent name).2.2)
  | LifecycleOp.getPose => ((s.GetPose).1, (s.GetPose).2.2)
  | LifecycleOp.debugRequest r => ((s.DebugRequest r).1, (s.DebugRequest r).2.2)

/-- Run a sequence of host lifecycle calls on the decorator. -/
def runOps (host : Host) (s : HmdShimDriver) : List LifecycleOp → HmdShimDriver
  | [] => s
  | op :: rest => runOps host (stepOp host s op).1 rest

/-- How one host call moves the "between Activate and Deactivate" phase. -/
def lifecycleFlagStep (b : Bool) : LifecycleOp → Bool
  | LifecycleOp.activate _ => true
  | LifecycleOp.deactivate => false
  | _ => b

/-- Whether an operation history leaves the device between an `Activate`
call and the next `Deactivate` call. -/
def betweenActivateAndDeactivate (ops : List LifecycleOp) : Bool :=
  ops.foldl lifecycleFlagStep false

/-! ### The top-level provider (`Driver::Init`, Driver.cpp:49-102) -/

/-- Struct `pvrHmdInfo`: the hardware identity queried by the gate. -/
structure pvrHmdInfo where
  VendorId : Nat
  ProductId : Nat
  deriving DecidableEq, Repr

/-- Outcomes of the PVR SDK calls made by one run of `Driver::Init` (the
sensor-service side of the boundary; each field is the `pvrResult` the call
would return, plus the identity `pvr_getHmdInfo` would report). -/
structure PvrOutcomes where
  initialiseResult : Int
  createSessionResult : Int
  getHmdInfoResult : Int
  hmdInfo : pvrHmdInfo
  deriving DecidableEq, Repr

/-- Calls `Driver::Init` makes into the PVR SDK and the hook installer, in
program order. -/
inductive InitEvent where
  | pvrInitialise (result : Int)
  | pvrCreateSession (result : Int)
  | pvrGetHmdInfo (result : Int)
  | installHook
  deriving DecidableEq, Repr

/-- The provider state relevant to the claims: the `m_isLoaded` flag.
(`m_pvr`/`m_pvrSession` are opaque handles no claim inspects.) -/
structure DriverState where
  isLoaded : Bool
  deriving DecidableEq, Repr

/-- The identity check of Driver.cpp:79: a Pimax Crystal
(`0x34A4:0x0012`) or Pimax Crystal Super (`0x34A4:0x0040`). -/
def hmdIdentityMatches (info : pvrHmdInfo) : Bool :=
  info.VendorId == 0x34A4 && (info.ProductId == 0x0012 || info.ProductId == 0x0040)

/-- The `try`-block of Driver.cpp:58-90: run the three PVR calls in order,
each failure throwing (so later calls are not made), then check the
identity; returns `loadDriver` and the calls actually performed. -/
def runGate (env : PvrOutcomes) : Bool × List InitEvent :=
  if env.initialiseResult ≠ pvr_success then
    (false, [InitEvent.pvrInitialise env.initialiseResult])
  else if env.createSessionResult ≠ pvr_success then
    (false, [InitEvent.pvrInitialise env.initialiseResult,
             InitEvent.pvrCreateSession env.createSessionResult])
  else if env.getHmdInfoResult ≠ pvr_success then
    (false, [InitEvent.pvrInitialise env.initialiseResult,
             InitEvent.pvrCreateSession env.createSessionResult,
             InitEvent.pvrGetHmdInfo env.getHmdInfoResult])
  else if ¬ hmdIdentityMatches env.hmdInfo then
    (false, [InitEvent.pvrInitialise env.initialiseResult,
             InitEvent.pvrCreateSession env.createSessionResult,
             InitEvent.pvrGetHmdInfo env.getHmdInfoResult])
  else
    (true, [InitEvent.pvrInitialise env.initialiseResult,
            InitEvent.pvrCreateSession env.createSessionResult,
            InitEvent.pvrGetHmdInfo env.getHmdInfoResult])

/-- Embeds `Driver::Init` (Driver.cpp:49-102): when `m_isLoaded` is already set the
whole gate is skipped; otherwise the gate runs and, only if it passes, the
hook is installed and `m_isLoaded` is set. Returns the new state, the
`vr::EVRInitError` (`m_isLoaded ? VRInitError_None :
VRInitError_Init_HmdNotFound`), and the calls performed. -/
def Driver.Init (env : PvrOutcomes) (s : DriverState) :
    DriverState × Nat × List InitEvent :=
  if s.isLoaded then
    (s, VRInitError_None, [])
  else
    let gate := runGate env
    if gate.1 then
      ({ isLoaded := true }, VRInitError_None, gate.2 ++ [InitEvent.installHook])
    else
      (s, VRInitError_Init_HmdNotFound, gate.2)

/-- Run a sequence of `Driver::Init` calls, each against its own PVR
outcomes, concatenating the performed calls. -/
def runInits (s : DriverState) : List PvrOutcomes → DriverState × List InitEvent
  | [] => (s, [])
  | env :: rest =>
    let first := Driver.Init env s
    let later := runInits first.1 rest
    (later.1, first.2.2 ++ later.2)

/-- The conjunction of the gate's success conditions; equals the
`loadDriver` flag `runGate` computes. -/
def gateOk (env : PvrOutcomes) : Bool :=
  (env.initialiseResult == pvr_success) && (env.createSessionResult == pvr_success)
    && (env.getHmdInfoResult == pvr_success) && hmdIdentityMatches env.hmdInfo

/-- A concrete wrapped device whose own `Activate` fails with
`vr::VRInitError_Driver_Failed`, for evaluating the decorator at it. -/
def failingDevice : WrappedDevice :=
  { activate := fun _ => VRInitError_Driver_Failed,
    getComponent := fun _ => none,
    getPose := { raw := 0 },
    debugRequest := fun r => r }

/-- A concrete host environment for evaluating the decorator. -/
def trivialHost : Host :=
  { trackedDeviceToPropertyContainer := fun i => i,
    createEyeTrackingComponent := fun _ _ => 42 }

/-! ## Theorems -/

/-- C2: the registration hook replaces the device by a decorator wrapping it
iff the caller resolves to the target vendor module and the device class is
HMD; a failed caller-module resolution is never the target; the (possibly
substituted) device is passed to the original registration function whose
result is returned unchanged. -/
theorem C2_hook_decoration (env : ProcessEnv) (g_pvr g_pvrSession : Nat)
    (original : String → TrackedDeviceClass → Device → Bool)
    (returnAddress : Nat) (serial : String) (cls : TrackedDeviceClass) (d : Device) :
    ((hooked_TrackedDeviceAdded env g_pvr g_pvrSession original
        returnAddress serial cls d).1
      = if IsTargetDriver env returnAddress ∧ cls = TrackedDeviceClass.hmd
        then Device.decorated d g_pvr g_pvrSession
        else d) ∧
    (env.moduleFromAddress returnAddress = none →
      IsTargetDriver env returnAddress = false) ∧
    ((hooked_TrackedDeviceAdded env g_pvr g_pvrSession original
        returnAddress serial cls d).2
      = original serial cls
          (hooked_TrackedDeviceAdded env g_pvr g_pvrSession original
            returnAddress serial cls d).1) := by
  refine ⟨?_, ?_, rfl⟩
  · by_cases ht : IsTargetDriver env returnAddress
    · by_cases hc : cls = TrackedDeviceClass.hmd
      · simp [hooked_TrackedDeviceAdded, CreateHmdShimDriver, tryCreateShim,
              hmdShimDriverCtor, ht, hc]
      · simp [hooked_TrackedDeviceAdded, ht, hc]
    · simp [hooked_TrackedDeviceAdded, ht]
  · intro hnone
    simp [IsTargetDriver, hnone]

/-- Witness for C2 at concrete inputs: with the caller resolved to the
target module handle and an HMD-class device, the hook substitutes the
decorator; an unresolved caller is not the target. -/
theorem C2_hook_decoration_witness :
    (hooked_TrackedDeviceAdded ⟨fun _ => some 7, fun _ => 7⟩ 1 2
        (fun _ _ _ => true) 100 "SN1" TrackedDeviceClass.hmd (Device.original 5)).1
      = Device.decorated (Device.original 5) 1 2 ∧
    IsTargetDriver ⟨fun _ => none, fun _ => 7⟩ 100 = false := by
  have h1 := C2_hook_decoration ⟨fun _ => some 7, fun _ => 7⟩ 1 2
    (fun _ _ _ => true) 100 "SN1" TrackedDeviceClass.hmd (Device.original 5)
  have h2 := C2_hook_decoration ⟨fun _ => none, fun _ => 7⟩ 1 2
    (fun _ _ _ => true) 100 "SN1" TrackedDeviceClass.hmd (Device.original 5)
  refine ⟨?_, h2.2.1 rfl⟩
  rw [h1.1]
  simp [IsTargetDriver]

/-- C4: an invalid sensor sample (the call did not return `pvr_success`, or
the timestamp is zero or negative) transforms to the fixed forward vector
`(0, 0, -1)` with the valid, tracked and active flags all false. -/
theorem C4_invalid_sample_fallback (result : Int) (state : pvrEyeTrackingInfo)
    (h : ¬ (result = pvr_success ∧ 0 < state.TimeInSeconds)) :
    sampleTransform result state =
      { vGazeTarget := (0, 0, -1),
        bValid := false, bTracked := false, bActive := false } := by
  have havail : isEyeTrackingDataAvailable result state = false := by
    simp only [isEyeTrackingDataAvailable, Bool.and_eq_false_iff, decide_eq_false_iff_not]
    tauto
  simp [sampleTransform, havail]

/-- Witness for C4: a failed sensor call (result 1) with any payload yields
the fallback sample. -/
theorem C4_invalid_sample_fallback_witness :
    sampleTransform 1 ⟨1, ⟨0, 0⟩, ⟨0, 0⟩⟩ =
      { vGazeTarget := (0, 0, -1),
        bValid := false, bTracked := false, bActive := false } :=
  C4_invalid_sample_fallback 1 ⟨1, ⟨0, 0⟩, ⟨0, 0⟩⟩ (by decide)

/-- C6: when the decorator's constructor signals `Unsupported`
(`EyeTrackerNotSupportedException`), the decoration step returns the
original device reference unchanged — no decorator is produced, so
registration of the device is never blocked. -/
theorem C6_ctor_failure_passthrough (ctor : Device → Except Unit Device)
    (d : Device) (h : ctor d = Except.error ()) :
    tryCreateShim ctor d = d := by
  simp [tryCreateShim, h]

/-- Witness for C6: a constructor that always signals `Unsupported` makes
the decoration step return the original device. -/
theorem C6_ctor_failure_passthrough_witness :
    tryCreateShim (fun _ => Except.error ()) (Device.original 3) = Device.original 3 :=
  C6_ctor_failure_passthrough (fun _ => Except.error ()) (Device.original 3) rfl

/-- C8: a second consecutive `Deactivate` observes the activity flag already
false, performs no join of the worker thread, and leaves the state exactly
as the first `Deactivate` left it. -/
theorem C8_deactivate_idempotent (s : HmdShimDriver) :
    ((s.Deactivate).1.Deactivate).1 = (s.Deactivate).1 ∧
    ((s.Deactivate).1.Deactivate).2 =
      [Event.clearActiveFlag false, Event.resetDeviceIndex, Event.forwardDeactivate] := by
  cases s with
  | mk dev pvr sess idx active worker comp =>
    cases active <;> simp [HmdShimDriver.Deactivate]

/-- C9: `EnterStandby`, `GetComponent`, `GetPose` and `DebugRequest` are
pure forwards: each emits exactly the one forwarded call, returns the
wrapped device's result unchanged, and leaves the decorator state
untouched. -/
theorem C9_pure_forwards (s : HmdShimDriver) (name request : String) :
    s.EnterStandby = (s, [Event.forwardEnterStandby]) ∧
    s.GetComponent name =
      (s, s.shimmedDevice.getComponent name, [Event.forwardGetComponent name]) ∧
    s.GetPose = (s, s.shimmedDevice.getPose, [Event.forwardGetPose]) ∧
    s.DebugRequest request =
      (s, s.shimmedDevice.debugRequest request, [Event.forwardDebugRequest request]) :=
  ⟨rfl, rfl, rfl, rfl⟩

/-- The polar-coordinate gaze vector is already of unit length, so
`XMVector3Normalize` returns it unchanged. -/
theorem XMVector3Normalize_polar (h v : ℝ) :
    XMVector3Normalize
        (Real.sin h * Real.cos v, Real.sin v, -(Real.cos h * Real.cos v))
      = (Real.sin h * Real.cos v, Real.sin v, -(Real.cos h * Real.cos v)) := by
  have h1 := Real.sin_sq_add_cos_sq h
  have h2 := Real.sin_sq_add_cos_sq v
  have hsum : (Real.sin h * Real.cos v) ^ 2 + (Real.sin v) ^ 2
      + (-(Real.cos h * Real.cos v)) ^ 2 = 1 := by
    linear_combination (Real.cos v) ^ 2 * h1 + h2
  simp only [XMVector3Normalize]
  rw [hsum, Real.sqrt_one]
  simp

/-- C5: a valid sensor sample transforms to the arctangents of the averaged
per-eye tangent components, converted to the normalized polar unit vector
`(sin h * cos v, sin v, -cos h * cos v)`, with all three flags true. -/
theorem C5_valid_sample_transform (result : Int) (state : pvrEyeTrackingInfo)
    (hres : result = pvr_success) (ht : 0 < state.TimeInSeconds) :
    sampleTransform result state =
      { vGazeTarget :=
          (Real.sin (Real.arctan
                (((state.GazeTanLeft.x + state.GazeTanRight.x) / 2 : ℚ) : ℝ)) *
             Real.cos (Real.arctan
                (((state.GazeTanLeft.y + state.GazeTanRight.y) / 2 : ℚ) : ℝ)),
           Real.sin (Real.arctan
                (((state.GazeTanLeft.y + state.GazeTanRight.y) / 2 : ℚ) : ℝ)),
           -(Real.cos (Real.arctan
                (((state.GazeTanLeft.x + state.GazeTanRight.x) / 2 : ℚ) : ℝ)) *
             Real.cos (Real.arctan
                (((state.GazeTanLeft.y + state.GazeTanRight.y) / 2 : ℚ) : ℝ)))),
        bValid := true, bTracked := true, bActive := true } := by
  have havail : isEyeTrackingDataAvailable result state = true := by
    simp [isEyeTrackingDataAvailable, hres, ht]
  simp only [sampleTransform, havail, if_true]
  rw [XMVector3Normalize_polar]

/-- Witness for C5: a successful sample with timestamp 1 and both tangents
`(0,0)` transforms to the straight-ahead vector `(0, 0, -1)` with all flags
true. -/
theorem C5_valid_sample_transform_witness :
    sampleTransform 0 ⟨1, ⟨0, 0⟩, ⟨0, 0⟩⟩ =
      { vGazeTarget := (0, 0, -1),
        bValid := true, bTracked := true, bActive := true } := by
  have h := C5_valid_sample_transform 0 ⟨1, ⟨0, 0⟩, ⟨0, 0⟩⟩ rfl (by decide)
  rw [h]
  norm_num [Real.arctan_zero]

/-- One host call preserves `workerRunning = active` and moves `active`
exactly as the phase function does. -/
theorem stepOp_flag (host : Host) (s : HmdShimDriver) (op : LifecycleOp)
    (h : s.workerRunning = s.active) :
    (stepOp host s op).1.workerRunning = (stepOp host s op).1.active ∧
    (stepOp host s op).1.active = lifecycleFlagStep s.active op := by
  cases op with
  | activate i => simp [stepOp, HmdShimDriver.Activate, lifecycleFlagStep]
  | deactivate =>
    cases hs : s.active <;>
      simp [stepOp, HmdShimDriver.Deactivate, lifecycleFlagStep, hs, hs ▸ h]
  | enterStandby => exact ⟨h, rfl⟩
  | getComponent name => exact ⟨h, rfl⟩
  | getPose => exact ⟨h, rfl⟩
  | debugRequest r => exact ⟨h, rfl⟩

/-- Over any operation sequence, `workerRunning = active` is preserved and
`active` follows the folded phase function. -/
theorem runOps_flag_invariant (host : Host) (ops : List LifecycleOp) :
    ∀ s : HmdShimDriver, s.workerRunning = s.active →
      (runOps host s ops).workerRunning = (runOps host s ops).active ∧
      (runOps host s ops).active = ops.foldl lifecycleFlagStep s.active := by
  induction ops with
  | nil => intro s h; exact ⟨h, rfl⟩
  | cons op rest ih =>
    intro s h
    have hstep := stepOp_flag host s op h
    have hrest := ih (stepOp host s op).1 hstep.1
    refine ⟨hrest.1, ?_⟩
    show (runOps host (stepOp host s op).1 rest).active = _
    rw [List.foldl_cons, ← hstep.2]
    exact hrest.2

/-- C7: from a freshly constructed decorator, after any sequence of host
lifecycle calls the worker thread is running iff the activity flag is true
iff the history leaves the device between an `Activate` and the next
`Deactivate`; and `Deactivate` clears the activity flag, joins the worker
exactly when the flag was previously true, resets the device index to the
invalid sentinel, and forwards deactivation to the wrapped device last. -/
theorem C7_lifecycle_invariant (host : Host) (w : WrappedDevice)
    (pvr pvrSession : Nat) (ops : List LifecycleOp) :
    ((runOps host (HmdShimDriver.init w pvr pvrSession) ops).workerRunning
        = (runOps host (HmdShimDriver.init w pvr pvrSession) ops).active) ∧
    ((runOps host (HmdShimDriver.init w pvr pvrSession) ops).active
        = betweenActivateAndDeactivate ops) ∧
    (∀ t : HmdShimDriver,
      (t.Deactivate).1.active = false ∧
      (t.Deactivate).1.deviceIndex = k_unTrackedDeviceIndexInvalid ∧
      (t.Deactivate).2 =
        Event.clearActiveFlag t.active ::
          ((if t.active then [Event.joinWorker] else []) ++
            [Event.resetDeviceIndex, Event.forwardDeactivate])) := by
  have hinv := runOps_flag_invariant host ops (HmdShimDriver.init w pvr pvrSession) rfl
  refine ⟨hinv.1, ?_, ?_⟩
  · rw [hinv.2]; rfl
  · intro t
    cases ht : t.active <;> simp [HmdShimDriver.Deactivate, ht]

/-- C1 counterexample: for a wrapped device whose own `Activate` fails with
`VRInitError_Driver_Failed`, the decorator still proceeds (activity flag set,
worker spawned) and returns `VRInitError_None`, not the wrapped device's
error code — refuting "only on success does it proceed" and "returns the
wrapped device's own init-error code unmodified". -/
theorem C1_activate_counterexample :
    failingDevice.activate 3 = VRInitError_Driver_Failed ∧
    ((HmdShimDriver.init failingDevice 0 0).Activate trivialHost 3).2.1
      = VRInitError_None ∧
    ((HmdShimDriver.init failingDevice 0 0).Activate trivialHost 3).1.active = true ∧
    ((HmdShimDriver.init failingDevice 0 0).Activate trivialHost 3).1.workerRunning
      = true ∧
    VRInitError_None ≠ VRInitError_Driver_Failed :=
  ⟨rfl, rfl, rfl, rfl, by decide⟩

/-- C1 as amended: `Activate` forwards to the wrapped device first (first
recorded call), then unconditionally — discarding the wrapped device's
result — records the device index, acquires the host input-component handle,
sets the activity flag true, spawns the worker, and always returns
`VRInitError_None`. -/
theorem C1_activate_amended (host : Host) (s : HmdShimDriver) (unObjectId : Nat) :
    s.Activate host unObjectId =
      ({ s with deviceIndex := unObjectId,
                eyeTrackingComponent := host.createEyeTrackingComponent
                  (host.trackedDeviceToPropertyContainer unObjectId) eyeTrackingPath,
                active := true, workerRunning := true },
       VRInitError_None,
       [Event.forwardActivate unObjectId (s.shimmedDevice.activate unObjectId),
        Event.setBoolProperty (host.trackedDeviceToPropertyContainer unObjectId) true,
        Event.createEyeTrackingComponent
          (host.trackedDeviceToPropertyContainer unObjectId) eyeTrackingPath,
        Event.spawnWorker]) := rfl

/-- The `loadDriver` flag computed by the gate equals the conjunction of all
its success conditions. -/
theorem runGate_loadDriver (env : PvrOutcomes) : (runGate env).1 = gateOk env := by
  simp only [runGate, gateOk]
  split_ifs <;> simp_all [pvr_success]

/-- The gate itself never installs the hook. -/
theorem installHook_not_mem_runGate (env : PvrOutcomes) :
    InitEvent.installHook ∉ (runGate env).2 := by
  simp only [runGate]
  split_ifs <;> simp

/-- C3: from an unloaded provider, if any PVR step fails or the identity is
not vendor `0x34A4` with product `0x0012` or `0x0040`, the hook is not
installed and `Init` returns `VRInitError_Init_HmdNotFound`; if every step
succeeds and the identity matches, the hook is installed and `Init` returns
`VRInitError_None`. -/
theorem C3_init_gate (env : PvrOutcomes) (s : DriverState) (h : s.isLoaded = false) :
    (gateOk env = false →
      (Driver.Init env s).2.1 = VRInitError_Init_HmdNotFound ∧
      (Driver.Init env s).1.isLoaded = false ∧
      InitEvent.installHook ∉ (Driver.Init env s).2.2) ∧
    (gateOk env = true →
      (Driver.Init env s).2.1 = VRInitError_None ∧
      (Driver.Init env s).1.isLoaded = true ∧
      InitEvent.installHook ∈ (Driver.Init env s).2.2) := by
  constructor
  · intro hg
    have hgate : (runGate env).1 = false := by rw [runGate_loadDriver, hg]
    simp [Driver.Init, h, hgate, installHook_not_mem_runGate env]
  · intro hg
    have hgate : (runGate env).1 = true := by rw [runGate_loadDriver, hg]
    simp [Driver.Init, h, hgate]

/-- Witness for C3 at concrete inputs: with all three PVR calls succeeding
and the identity of a Pimax Crystal, `Init` loads and reports success. -/
theorem C3_init_gate_witness :
    (Driver.Init ⟨0, 0, 0, ⟨0x34A4, 0x0012⟩⟩ ⟨false⟩).2.1 = VRInitError_None ∧
    (Driver.Init ⟨0, 0, 0, ⟨0x34A4, 0x0012⟩⟩ ⟨false⟩).1.isLoaded = true ∧
    InitEvent.installHook ∈ (Driver.Init ⟨0, 0, 0, ⟨0x34A4, 0x0012⟩⟩ ⟨false⟩).2.2 :=
  (C3_init_gate ⟨0, 0, 0, ⟨0x34A4, 0x0012⟩⟩ ⟨false⟩ rfl).2 (by decide)

/-- An `Init` on an already-loaded provider performs no PVR calls, installs
nothing, and returns success. -/
theorem Init_when_loaded (env : PvrOutcomes) (s : DriverState)
    (h : s.isLoaded = true) :
    Driver.Init env s = (s, VRInitError_None, []) := by
  simp [Driver.Init, h]

/-- A sequence of `Init` calls on an already-loaded provider performs no
calls at all. -/
theorem runInits_when_loaded (envs : List PvrOutcomes) :
    ∀ s : DriverState, s.isLoaded = true → runInits s envs = (s, []) := by
  induction envs with
  | nil => intro s h; rfl
  | cons env rest ih =>
    intro s h
    simp [runInits, Init_when_loaded env s h, ih s h]

/-- From an unloaded provider, one `Init` either loads (gate passed, one
hook installation appended) or stays unloaded (no hook installation). -/
theorem Init_unloaded_cases (env : PvrOutcomes) (s : DriverState)
    (h : s.isLoaded = false) :
    (gateOk env = true ∧ Driver.Init env s =
        ({ isLoaded := true }, VRInitError_None,
          (runGate env).2 ++ [InitEvent.installHook])) ∨
    (gateOk env = false ∧ Driver.Init env s =
        (s, VRInitError_Init_HmdNotFound, (runGate env).2)) := by
  cases hg : gateOk env
  · right
    refine ⟨rfl, ?_⟩
    have hgate : (runGate env).1 = false := by rw [runGate_loadDriver, hg]
    simp [Driver.Init, h, hgate]
  · left
    refine ⟨rfl, ?_⟩
    have hgate : (runGate env).1 = true := by rw [runGate_loadDriver, hg]
    simp [Driver.Init, h, hgate]

/-- From an unloaded provider, any sequence of `Init` calls installs the
hook at most once. -/
theorem runInits_count_le_one (envs : List PvrOutcomes) :
    ∀ s : DriverState, s.isLoaded = false →
      ((runInits s envs).2.count InitEvent.installHook) ≤ 1 := by
  induction envs with
  | nil => intro s h; simp [runInits]
  | cons env rest ih =>
    intro s h
    rcases Init_unloaded_cases env s h with ⟨_, heq⟩ | ⟨_, heq⟩
    · have hrest := runInits_when_loaded rest { isLoaded := true } rfl
      simp [runInits, heq, hrest,
            List.count_eq_zero.mpr (installHook_not_mem_runGate env)]
    · have hrest := ih s h
      simp only [runInits, heq, List.count_append]
      rw [List.count_eq_zero.mpr (installHook_not_mem_runGate env)]
      simpa using hrest

/-- C10: the hook is installed at most once — an `Init` on an
already-loaded provider skips the gate and the installation entirely
(performing no calls) and returns the success code, and across any sequence
of `Init` runs from the initial state at most one hook installation ever
happens. -/
theorem C10_hook_installed_once :
    (∀ (env : PvrOutcomes) (s : DriverState), s.isLoaded = true →
        Driver.Init env s = (s, VRInitError_None, [])) ∧
    (∀ envs : List PvrOutcomes,
        ((runInits { isLoaded := false } envs).2.count InitEvent.installHook) ≤ 1) :=
  ⟨Init_when_loaded, fun envs => runInits_count_le_one envs { isLoaded := false } rfl⟩

/-- Witness for C10: a loaded provider's `Init` performs no calls and
returns success, even when every PVR call would fail. -/
theorem C10_hook_installed_once_witness :
    Driver.Init ⟨1, 1, 1, ⟨0, 0⟩⟩ ⟨true⟩ = (⟨true⟩, VRInitError_None, []) :=
  C10_hook_installed_once.1 ⟨1, 1, 1, ⟨0, 0⟩⟩ ⟨true⟩ rfl

end DriverShim
